import Mathlib

/-!
# AllThingsCleanApp — verification of the synchronization engine

Shallow embedding of the Shopify/Lightspeed synchronization core of the repository:
the webhook signature verifier (`services/shopifyWebhookHandler.js`:
`verifyWebhook`), the entity translators (`convertShopifyProduct`,
`convertItemToProduct`, `convertShopifyCustomer`, `convertShopifyOrder`), the
Mongoose-style upsert store (`findOneAndUpdate` with `upsert: true`), the
webhook ingestion endpoint (`POST /api/shopify/webhook` in `server.js`) and the
bulk product sync route (`POST /api/shopify/sync/products`).

Modelling conventions:
- Machine words are `Nat` with explicit `% 2^32`; raw request bodies, secrets
  and digests are `List Nat` (byte values).
- JavaScript numbers are `JSNum` (`nan` or an exact rational); the embedding
  covers the decimal forms that `parseFloat` / `parseInt` meet here.
- JavaScript strings in the verifier are `List Char`; absent values are
  `Option`. A `none` in a field of an update document models a JavaScript
  `undefined`, which Mongoose strips from the `$set` document, so the stored
  field keeps its previous value.
- `crypto.createHmac("sha256", secret).update(body).digest("base64")` is
  embedded as a full executable HMAC-SHA-256 (FIPS 180-4 / RFC 2104) plus
  base64, validated below against published test vectors.
-/

set_option maxRecDepth 40000

namespace ATC

/-! ## 32-bit word arithmetic -/

/-- The constant `2 ^ 32`, the modulus for the 32-bit words of the SHA-256 compression. -/
def M32 : Nat := 4294967296

/-- 32-bit right rotation. -/
def rotr32 (x n : Nat) : Nat := ((x >>> n) ||| (x <<< (32 - n))) % M32

/-! ## SHA-256 (FIPS 180-4) -/

/-- The 64 SHA-256 round constants (FIPS 180-4 §4.2.2, written in
decimal). -/
def sha256K : List Nat :=
  [1116352408, 1899447441, 3049323471, 3921009573, 961987163,
   1508970993, 2453635748, 2870763221, 3624381080, 310598401,
   607225278, 1426881987, 1925078388, 2162078206, 2614888103,
   3248222580, 3835390401, 4022224774, 264347078, 604807628,
   770255983, 1249150122, 1555081692, 1996064986, 2554220882,
   2821834349, 2952996808, 3210313671, 3336571891, 3584528711,
   113926993, 338241895, 666307205, 773529912, 1294757372,
   1396182291, 1695183700, 1986661051, 2177026350, 2456956037,
   2730485921, 2820302411, 3259730800, 3345764771, 3516065817,
   3600352804, 4094571909, 275423344, 430227734, 506948616,
   659060556, 883997877, 958139571, 1322822218, 1537002063,
   1747873779, 1955562222, 2024104815, 2227730452, 2361852424,
   2428436474, 2756734187, 3204031479, 3329325298]

/-- The SHA-256 initial hash value (FIPS 180-4 §5.3.3, in decimal). -/
def sha256H0 : List Nat :=
  [1779033703, 3144134277, 1013904242, 2773480762,
   1359893119, 2600822924, 528734635, 1541459225]

/-- Big-endian byte expansion of `n`, `w` bytes wide. -/
def beBytes (w n : Nat) : List Nat :=
  (List.range w).reverse.map (fun i => (n >>> (8 * i)) % 256)

/-- SHA-256 message padding: append `0x80`, zeros, and the 64-bit
big-endian bit length, reaching a multiple of 64 bytes. -/
def sha256Pad (msg : List Nat) : List Nat :=
  let len := msg.length
  let zeros := (64 - ((len + 9) % 64)) % 64
  msg ++ [0x80] ++ List.replicate zeros 0 ++ beBytes 8 (8 * len)

/-- Big-endian 32-bit words from a byte list (groups of four). -/
def bytesToWords : List Nat → List Nat
  | b0 :: b1 :: b2 :: b3 :: rest =>
      (((b0 * 256 + b1) * 256 + b2) * 256 + b3) :: bytesToWords rest
  | _ => []

/-- Split a padded message into its 64-byte blocks; `n` is the block count. -/
def splitBlocks : Nat → List Nat → List (List Nat)
  | 0, _ => []
  | n + 1, l => l.take 64 :: splitBlocks n (l.drop 64)

/-- One extension step of the SHA-256 message schedule, appended to the
words accumulated so far. -/
def scheduleStep (ws : List Nat) : Nat :=
  let n := ws.length
  let w15 := ws.getD (n - 15) 0
  let w2 := ws.getD (n - 2) 0
  let s0 := (rotr32 w15 7) ^^^ (rotr32 w15 18) ^^^ (w15 >>> 3)
  let s1 := (rotr32 w2 17) ^^^ (rotr32 w2 19) ^^^ (w2 >>> 10)
  (ws.getD (n - 16) 0 + s0 + ws.getD (n - 7) 0 + s1) % M32

/-- Extend the 16 block words by `n` more schedule words. -/
def extendSchedule : Nat → List Nat → List Nat
  | 0, ws => ws
  | n + 1, ws => extendSchedule n (ws ++ [scheduleStep ws])

/-- One SHA-256 compression round; the state is the eight working words
`[a, b, c, d, e, f, g, h]` and `kw` pairs a round constant with a schedule
word. -/
def sha256Round (st : List Nat) (kw : Nat × Nat) : List Nat :=
  match st with
  | [a, b, c, d, e, f, g, h] =>
    let s1 := (rotr32 e 6) ^^^ (rotr32 e 11) ^^^ (rotr32 e 25)
    let ch := (e &&& f) ^^^ ((e ^^^ 4294967295) &&& g)
    let t1 := (h + s1 + ch + kw.1 + kw.2) % M32
    let s0 := (rotr32 a 2) ^^^ (rotr32 a 13) ^^^ (rotr32 a 22)
    let mj := (a &&& b) ^^^ (a &&& c) ^^^ (b &&& c)
    let t2 := (s0 + mj) % M32
    [(t1 + t2) % M32, a, b, c, (d + t1) % M32, e, f, g]
  | other => other

/-- Compress one 64-byte block into the running hash state. -/
def compressBlock (h : List Nat) (block : List Nat) : List Nat :=
  let ws := extendSchedule 48 (bytesToWords block)
  let st := (sha256K.zip ws).foldl sha256Round h
  (h.zip st).map (fun p => (p.1 + p.2) % M32)

/-- SHA-256 of a byte list, as the 32 digest bytes. -/
def sha256 (msg : List Nat) : List Nat :=
  let padded := sha256Pad msg
  let hf := (splitBlocks (padded.length / 64) padded).foldl compressBlock sha256H0
  (hf.map (beBytes 4)).flatten

/-! ## HMAC-SHA-256 (RFC 2104) and base64 -/

/-- HMAC-SHA-256 over byte lists. -/
def hmacSha256 (key msg : List Nat) : List Nat :=
  let k0 := if 64 < key.length then sha256 key else key
  let kp := k0 ++ List.replicate (64 - k0.length) 0
  sha256 ((kp.map (fun b => b ^^^ 0x5c)) ++
    sha256 ((kp.map (fun b => b ^^^ 0x36)) ++ msg))

/-- The base64 alphabet. -/
def base64Table : List Char :=
  "ABCDEFGHIJKLMNOPQRSTUVWXYZabcdefghijklmnopqrstuvwxyz0123456789+/".toList

/-- Character for a 6-bit group. -/
def base64Char (n : Nat) : Char := base64Table.getD n 'A'

/-- Standard base64 with `=` padding, over byte lists. -/
def base64Encode : List Nat → List Char
  | [] => []
  | [b0] => [base64Char (b0 / 4), base64Char (b0 % 4 * 16), '=', '=']
  | [b0, b1] =>
      [base64Char (b0 / 4), base64Char (b0 % 4 * 16 + b1 / 16),
       base64Char (b1 % 16 * 4), '=']
  | b0 :: b1 :: b2 :: rest =>
      base64Char (b0 / 4) :: base64Char (b0 % 4 * 16 + b1 / 16) ::
      base64Char (b1 % 16 * 4 + b2 / 64) :: base64Char (b2 % 64) ::
      base64Encode rest

/-- UTF-8 bytes of an ASCII string (all source inputs used here are ASCII). -/
def asciiBytes (s : String) : List Nat := s.toList.map Char.toNat

/-! ## JavaScript value semantics

Helpers for the JavaScript idioms the handlers use: `||` defaulting with
falsiness, `parseFloat` / `parseInt` on decimal literals (producing `NaN`
when no digits can be consumed; `Infinity` and hex prefixes do not occur in
these payloads and are not modelled), string `includes`, and template
strings. -/

/-- An exact rational in lowest terms (numerator, positive denominator),
kept canonical by `qnorm`. Every value the embedding builds goes through
`qnorm`, so structural equality is value equality. -/
structure QVal where
  n : Int
  d : Nat
deriving DecidableEq, Repr

/-- Normalize a fraction by the gcd of numerator and denominator. -/
def qnorm (n : Int) (d : Nat) : QVal :=
  let g := Nat.gcd n.natAbs d
  if g = 0 then ⟨0, 0⟩ else ⟨n / (g : Int), d / g⟩

/-- The rational value of an integer. -/
def qofInt (n : Int) : QVal := ⟨n, 1⟩

/-- Addition of canonical rationals. -/
def qadd (a b : QVal) : QVal := qnorm (a.n * (b.d : Int) + b.n * (a.d : Int)) (a.d * b.d)

/-- Multiplication of canonical rationals. -/
def qmul (a b : QVal) : QVal := qnorm (a.n * b.n) (a.d * b.d)

/-- Positivity of a canonical rational (the denominator is positive). -/
def qPos (a : QVal) : Bool := decide (0 < a.n)

/-- A JavaScript number: `NaN` or an exact rational value. The decimal
literals appearing in these payloads are exact, so no floating-point
rounding is involved in any property proved here. -/
inductive JSNum where
  | nan : JSNum
  | num (q : QVal) : JSNum
deriving DecidableEq, Repr

/-- The JavaScript number `0`. -/
def JSNum.zero : JSNum := .num (qofInt 0)

/-- JavaScript `x > 0` on a number (`NaN > 0` is `false`). -/
def JSNum.gtZero : JSNum → Bool
  | .nan => false
  | .num q => qPos q

/-- JavaScript `*` on numbers: `NaN` propagates. -/
def JSNum.mul : JSNum → JSNum → JSNum
  | .num a, .num b => .num (qmul a b)
  | _, _ => .nan

/-- Decimal digit run to a natural number. -/
def digitsVal (ds : List Char) : Nat :=
  ds.foldl (fun a c => a * 10 + (c.toNat - 48)) 0

/-- JavaScript whitespace skipped by the numeric parsers. -/
def isJsWs (c : Char) : Bool :=
  c =  ' ' || c = '\t' || c = '\n' || c = '\r'

/-- Optional sign prefix: the sign as an integer and the remaining input. -/
def signSplit : List Char → Int × List Char
  | '-' :: t => (-1, t)
  | '+' :: t => (1, t)
  | t => (1, t)

/-- Exponent suffix of a decimal literal: contributes `0` when no digits
follow (JavaScript keeps the longest valid literal prefix, so `"1e"`
parses as `1`). -/
def expVal (t : List Char) : Int :=
  let (sgn, t1) := signSplit t
  let ds := t1.takeWhile Char.isDigit
  if ds.isEmpty then 0 else sgn * (digitsVal ds : Int)

/-- The rational value of a parsed decimal literal
`sgn (ip . fp) · 10 ^ e`, in canonical form. -/
def decToQ (sgn : Int) (ip fp : List Char) (e : Int) : QVal :=
  let base : Int := sgn * ((digitsVal ip : Int) * ((10 : Int) ^ fp.length) + (digitsVal fp : Int))
  qnorm (base * (10 : Int) ^ e.toNat) ((10 : Nat) ^ fp.length * (10 : Nat) ^ (-e).toNat)

/-- Model of JavaScript `parseFloat` on a string: skip whitespace, optional
sign, integer digits, optional fraction, optional exponent; `NaN` when no
digit is consumed. -/
def parseFloatChars (cs : List Char) : JSNum :=
  let cs0 := cs.dropWhile isJsWs
  let (sgn, cs1) := signSplit cs0
  let ip := cs1.takeWhile Char.isDigit
  let cs2 := cs1.dropWhile Char.isDigit
  let (fp, cs3) :=
    match cs2 with
    | '.' :: t => (t.takeWhile Char.isDigit, t.dropWhile Char.isDigit)
    | t => ([], t)
  if ip.isEmpty && fp.isEmpty then JSNum.nan
  else
    let e : Int :=
      match cs3 with
      | 'e' :: t => expVal t
      | 'E' :: t => expVal t
      | _ => 0
    JSNum.num (decToQ sgn ip fp e)

/-- Model of JavaScript `parseInt` (no radix argument, decimal input):
whitespace, optional sign, decimal digits; `NaN` when no digit is
consumed. -/
def parseIntChars (cs : List Char) : JSNum :=
  let cs0 := cs.dropWhile isJsWs
  let (sgn, cs1) := signSplit cs0
  let ds := cs1.takeWhile Char.isDigit
  if ds.isEmpty then JSNum.nan else JSNum.num (qofInt (sgn * (digitsVal ds : Int)))

/-- JavaScript `a || b` where `a` is a possibly-absent string: falsy means
`undefined` or the empty string. -/
def jsOrS (a : Option String) (b : String) : String :=
  match a with
  | some s => if s = "" then b else s
  | none => b

/-- JavaScript `a || b` where both operands are possibly-absent strings. -/
def jsOrOpt (a b : Option String) : Option String :=
  match a with
  | some s => if s = "" then b else some s
  | none => b

/-- Model of `parseFloat(x || 0)` on a possibly-absent string field: an absent or
empty value falls back to the number `0` before parsing. -/
def parseFloatOrZero (x : Option String) : JSNum :=
  match x with
  | some s => if s = "" then JSNum.zero else parseFloatChars s.toList
  | none => JSNum.zero

/-- Model of `parseFloat(x)` with no fallback: `parseFloat(undefined)` is `NaN`. -/
def parseFloatJS (x : Option String) : JSNum :=
  match x with
  | some s => parseFloatChars s.toList
  | none => JSNum.nan

/-- Model of `parseInt(x || 0)` on a possibly-absent string field. -/
def parseIntOrZero (x : Option String) : JSNum :=
  match x with
  | some s => if s = "" then JSNum.zero else parseIntChars s.toList
  | none => JSNum.zero

/-- JavaScript number-to-string for the identifiers on which the handlers
call `.toString()`; Shopify ids are integers. -/
def idToString (n : Nat) : String := toString n

/-- Substring test via `List.isPrefixOf`, the semantics of JavaScript
`String.prototype.includes`. -/
def seqContains (pat : List Char) : List Char → Bool
  | [] => pat.isEmpty
  | c :: t => pat.isPrefixOf (c :: t) || seqContains pat t

/-- JavaScript `s.includes(pat)`. -/
def strIncludes (s pat : String) : Bool := seqContains pat.toList s.toList

/-- Model of `tags?.includes(pat) || false` on a possibly-absent tags string. -/
def tagsInclude (tags : Option String) (pat : String) : Bool :=
  match tags with
  | some s => strIncludes s pat
  | none => false

/-- Model of `tags ? tags.split(", ") : []` on a possibly-absent tags string. -/
def splitTags (tags : Option String) : List String :=
  match tags with
  | some s => if s = "" then [] else s.splitOn ", "
  | none => []

/-- JavaScript `x > 0` on a possibly-absent integer field
(`undefined > 0` is `false`). -/
def jsIntGtZero (iq : Option Int) : Bool :=
  match iq with
  | some q => decide (0 < q)
  | none => false

/-! ## The `===` comparison and its cost model

`verifyWebhook` compares the recomputed digest with the header using plain
string identity (`hash === hmacHeader`). The cost model counts character
comparisons: strings of unequal length are rejected from their length
fields without scanning; equal-length strings are scanned left to right and
the scan stops at the first mismatching character. -/

/-- Left-to-right scan of two equal-length strings: the verdict and the
number of character comparisons performed (short-circuits on the first
mismatch). -/
def prefixScan : List Char → List Char → Bool × Nat
  | [], [] => (true, 0)
  | a :: s, b :: t =>
      if a = b then ((prefixScan s t).1, (prefixScan s t).2 + 1) else (false, 1)
  | _, _ => (false, 0)

/-- JavaScript `s === t` on strings, with its comparison-count cost. -/
def jsStrEqCost (s t : List Char) : Bool × Nat :=
  if s.length = t.length then prefixScan s t else (false, 0)

/-- Comparison `s === t` where `t` may be an absent header value (`undefined` never
equals a string, at no scanning cost). -/
def jsStrEqOpt (s : List Char) (t : Option (List Char)) : Bool :=
  match t with
  | some t0 => (jsStrEqCost s t0).1
  | none => false

/-- Length of the agreeing prefix of two strings. -/
def commonPrefixLen : List Char → List Char → Nat
  | a :: s, b :: t => if a = b then commonPrefixLen s t + 1 else 0
  | _, _ => 0

/-! ## The document store

The local MongoDB collections, one association list per entity kind, keyed
by the external id stored in the document (`shopifyId` / `lightspeedId`).
`Model.findOneAndUpdate(filter, doc, upsert: true)` casts `doc` into a
`$set`: keys whose value is `undefined` are stripped, so those stored
fields keep their previous values; on a miss a new document is inserted.
Validators do not run on these update paths (the source never sets
`runValidators`), and Mongoose-managed meta fields (`createdAt`,
`updatedAt`) are outside the canonical record and not modelled. -/

/-- Find a document by key. -/
def findDoc {α : Type} : List (String × α) → String → Option α
  | [], _ => none
  | (k1, v) :: rest, k => if k1 = k then some v else findDoc rest k

/-- Model of `findOneAndUpdate(…, upsert: true)`: merge into the matched document
with the `$set` semantics of the entity kind, or insert the update document. -/
def findOneAndUpdateUpsert {α β : Type} (merge : α → β → α) (ins : β → α) :
    List (String × α) → String → β → List (String × α)
  | [], k, u => [(k, ins u)]
  | (k1, v) :: rest, k, u =>
      if k1 = k then (k1, merge v u) :: rest
      else (k1, v) :: findOneAndUpdateUpsert merge ins rest k u

/-- Model of `findOneAndUpdate` without `upsert`: a miss changes nothing. -/
def findOneAndUpdateHit {α β : Type} (merge : α → β → α) :
    List (String × α) → String → β → List (String × α)
  | [], _, _ => []
  | (k1, v) :: rest, k, u =>
      if k1 = k then (k1, merge v u) :: rest
      else (k1, v) :: findOneAndUpdateHit merge rest k u

/-- Model of `findOneAndDelete`: remove the matched document if present. -/
def findOneAndDelete {α : Type} : List (String × α) → String → List (String × α)
  | [], _ => []
  | (k1, v) :: rest, k =>
      if k1 = k then rest else (k1, v) :: findOneAndDelete rest k

/-! ## External payload shapes (Shopify REST webhook bodies)

One structure per JSON shape the handlers read, with `Option` for fields
that may be absent (`undefined`). Field names keep the external snake_case
names the code accesses. -/

/-- An entry of `product.variants`. -/
structure ShopifyVariantPayload where
  id : Option Nat
  title : Option String
  price : Option String
  compare_at_price : Option String
  sku : Option String
  barcode : Option String
  inventory_quantity : Option Int
deriving DecidableEq, Repr

/-- An entry of `product.images` (only `src` is read). -/
structure ShopifyImagePayload where
  src : Option String
deriving DecidableEq, Repr

/-- A Shopify product payload, restricted to the fields
`convertShopifyProduct` reads. -/
structure ShopifyProductPayload where
  id : Option Nat
  title : Option String
  vendor : Option String
  product_type : Option String
  body_html : Option String
  tags : Option String
  variants : Option (List ShopifyVariantPayload)
  images : Option (List ShopifyImagePayload)
  image : Option ShopifyImagePayload
  created_at : Option String
  updated_at : Option String
deriving DecidableEq, Repr

/-- The variant with every field absent: `product.variants?.[0] || {}`. -/
def emptyVariantPayload : ShopifyVariantPayload :=
  ⟨none, none, none, none, none, none, none⟩

/-- The product payload with every field absent (what the handler sees when
the decoded body has none of the product fields). -/
def emptyProductPayload : ShopifyProductPayload :=
  ⟨none, none, none, none, none, none, none, none, none, none, none⟩

/-- An address object (Shopify `default_address` / order addresses). -/
structure ShopifyAddressPayload where
  address1 : Option String
  address2 : Option String
  city : Option String
  province : Option String
  country : Option String
  zip : Option String
deriving DecidableEq, Repr

/-- An empty address: `customer.default_address || {}`. -/
def emptyAddressPayload : ShopifyAddressPayload := ⟨none, none, none, none, none, none⟩

/-- A Shopify customer payload, restricted to the fields
`convertShopifyCustomer` reads. -/
structure ShopifyCustomerPayload where
  id : Option Nat
  first_name : Option String
  last_name : Option String
  email : Option String
  phone : Option String
  orders_count : Option Int
  total_spent : Option String
  default_address : Option ShopifyAddressPayload
  tags : Option String
  created_at : Option String
  updated_at : Option String
deriving DecidableEq, Repr

/-- The customer payload with every field absent. -/
def emptyCustomerPayload : ShopifyCustomerPayload :=
  ⟨none, none, none, none, none, none, none, none, none, none, none⟩

/-- The `order.customer` sub-object. -/
structure ShopifyCustomerRef where
  id : Option Nat
  first_name : Option String
  last_name : Option String
deriving DecidableEq, Repr

/-- An entry of `order.line_items`. -/
structure ShopifyLineItemPayload where
  product_id : Option Nat
  variant_id : Option Nat
  name : Option String
  quantity : Option Int
  price : Option String
  sku : Option String
deriving DecidableEq, Repr

/-- The chain `order.total_shipping_price_set?.shop_money?.amount`, flattened to the
single leaf the code reads through optional chaining. -/
structure ShopifyShippingSet where
  amount : Option String
deriving DecidableEq, Repr

/-- A Shopify order payload, restricted to the fields the order handlers
read. -/
structure ShopifyOrderPayload where
  id : Option Nat
  order_number : Option Int
  customer : Option ShopifyCustomerRef
  email : Option String
  line_items : Option (List ShopifyLineItemPayload)
  subtotal_price : Option String
  total_tax : Option String
  total_shipping_price_set : Option ShopifyShippingSet
  total_price : Option String
  currency : Option String
  financial_status : Option String
  fulfillment_status : Option String
  shipping_address : Option ShopifyAddressPayload
  billing_address : Option ShopifyAddressPayload
  created_at : Option String
  updated_at : Option String
  cancelled_at : Option String
deriving DecidableEq, Repr

/-- The order payload with every field absent. -/
def emptyOrderPayload : ShopifyOrderPayload :=
  ⟨none, none, none, none, none, none, none, none, none, none, none, none,
   none, none, none, none, none⟩

/-! ## Canonical documents and the Shopify translators -/

/-- A stored product variant (`variants` array entries of the update). -/
structure VariantDoc where
  id : Option Nat
  title : Option String
  price : JSNum
  sku : Option String
  inventoryQuantity : Option Int
deriving DecidableEq, Repr

/-- The canonical product document: exactly the fields
`convertShopifyProduct` writes. `Option` fields are the ones the converter
can emit as `undefined` (stripped from the `$set`, hence merged). -/
structure ProductDoc where
  shopifyId : String
  name : Option String
  brand : String
  category : String
  price : JSNum
  compareAtPrice : JSNum
  description : String
  imageUrl : String
  images : List (Option String)
  inStock : Bool
  stockQuantity : Int
  sku : Option String
  barcode : Option String
  tags : List String
  variants : List VariantDoc
  isNew : Bool
  isFeatured : Bool
  dateAdded : Option String
  lastUpdated : Option String
deriving DecidableEq, Repr

/-- Embedding of `convertShopifyProduct` (services/shopifyWebhookHandler.js, 99-136):
pure translation of a Shopify product payload. The only throwing access is
`product.id.toString()` on an absent `id`. -/
def convertShopifyProduct (product : ShopifyProductPayload) : Except String ProductDoc :=
  match product.id with
  | none => .error "TypeError: cannot read toString of undefined"
  | some pid =>
    let mainVariant := (product.variants.getD []).headD emptyVariantPayload
    let mainImage :=
      jsOrS ((product.images.bind List.head?).bind ShopifyImagePayload.src)
        (jsOrS (product.image.bind ShopifyImagePayload.src)
          "https://via.placeholder.com/400")
    let images := ((product.images.map (List.map ShopifyImagePayload.src)).getD [])
    .ok
      { shopifyId := idToString pid
        name := product.title
        brand := jsOrS product.vendor "Unknown"
        category := jsOrS product.product_type "Uncategorized"
        price := parseFloatOrZero mainVariant.price
        compareAtPrice := parseFloatOrZero mainVariant.compare_at_price
        description := jsOrS product.body_html ""
        imageUrl := mainImage
        images := images
        inStock := jsIntGtZero mainVariant.inventory_quantity
        stockQuantity := (mainVariant.inventory_quantity.getD 0)
        sku := mainVariant.sku
        barcode := mainVariant.barcode
        tags := splitTags product.tags
        variants := (product.variants.getD []).map (fun v =>
          { id := v.id
            title := v.title
            price := parseFloatJS v.price
            sku := v.sku
            inventoryQuantity := v.inventory_quantity })
        isNew := tagsInclude product.tags "new"
        isFeatured := tagsInclude product.tags "featured"
        dateAdded := product.created_at
        lastUpdated := product.updated_at }

/-- The `$set` merge for a product update document: `Option` fields that the
converter emitted as `undefined` keep the stored value; every other field
is overwritten. -/
def mergeProduct (old upd : ProductDoc) : ProductDoc :=
  { upd with
    name := upd.name <|> old.name
    sku := upd.sku <|> old.sku
    barcode := upd.barcode <|> old.barcode
    dateAdded := upd.dateAdded <|> old.dateAdded
    lastUpdated := upd.lastUpdated <|> old.lastUpdated }

/-- The canonical customer document (fields of `convertShopifyCustomer`). -/
structure CustomerDoc where
  shopifyId : String
  firstName : Option String
  lastName : Option String
  email : Option String
  phone : Option String
  ordersCount : Int
  totalSpent : JSNum
  address : ShopifyAddressPayload
  tags : List String
  dateAdded : Option String
  lastUpdated : Option String
deriving DecidableEq, Repr

/-- Embedding of `convertShopifyCustomer` (services/shopifyWebhookHandler.js, 168-191). -/
def convertShopifyCustomer (customer : ShopifyCustomerPayload) : Except String CustomerDoc :=
  match customer.id with
  | none => .error "TypeError: cannot read toString of undefined"
  | some cid =>
    let defaultAddress := customer.default_address.getD emptyAddressPayload
    .ok
      { shopifyId := idToString cid
        firstName := customer.first_name
        lastName := customer.last_name
        email := customer.email
        phone := customer.phone
        ordersCount := customer.orders_count.getD 0
        totalSpent := parseFloatOrZero customer.total_spent
        address := defaultAddress
        tags := splitTags customer.tags
        dateAdded := customer.created_at
        lastUpdated := customer.updated_at }

/-- The `$set` merge for a customer update document. -/
def mergeCustomer (old upd : CustomerDoc) : CustomerDoc :=
  { upd with
    firstName := upd.firstName <|> old.firstName
    lastName := upd.lastName <|> old.lastName
    email := upd.email <|> old.email
    phone := upd.phone <|> old.phone
    dateAdded := upd.dateAdded <|> old.dateAdded
    lastUpdated := upd.lastUpdated <|> old.lastUpdated }

/-- A stored order line item. -/
structure OrderItemDoc where
  productId : Option String
  variantId : Option String
  name : Option String
  quantity : Option Int
  price : JSNum
  total : JSNum
  sku : Option String
deriving DecidableEq, Repr

/-- The canonical order document: the fields `convertShopifyOrder` writes,
plus the cancellation fields `handleOrderCancelled` stamps (`cancelReason`
is in the schema and only ever carried along). -/
structure OrderDoc where
  shopifyId : String
  orderNumber : Option Int
  customerId : Option String
  customerName : String
  customerEmail : Option String
  items : List OrderItemDoc
  subtotal : JSNum
  tax : JSNum
  shipping : JSNum
  total : JSNum
  currency : Option String
  status : Option String
  fulfillmentStatus : Option String
  shippingAddress : Option ShopifyAddressPayload
  billingAddress : Option ShopifyAddressPayload
  cancelledAt : Option String
  cancelReason : Option String
  dateCreated : Option String
  dateUpdated : Option String
  lastUpdated : Option String
deriving DecidableEq, Repr

/-- Embedding of `convertShopifyOrder` (services/shopifyWebhookHandler.js, 229-258);
`now` stands for the `new Date()` the converter stamps into
`lastUpdated`. -/
def convertShopifyOrder (order : ShopifyOrderPayload) (now : String) : Except String OrderDoc :=
  match order.id with
  | none => .error "TypeError: cannot read toString of undefined"
  | some oid =>
    .ok
      { shopifyId := idToString oid
        orderNumber := order.order_number
        customerId := (order.customer.bind ShopifyCustomerRef.id).map idToString
        customerName :=
          (jsOrS (order.customer.bind ShopifyCustomerRef.first_name) "" ++ " " ++
           jsOrS (order.customer.bind ShopifyCustomerRef.last_name) "").trim
        customerEmail := order.email
        items := (order.line_items.getD []).map (fun item =>
          { productId := item.product_id.map idToString
            variantId := item.variant_id.map idToString
            name := item.name
            quantity := item.quantity
            price := parseFloatJS item.price
            total := (parseFloatJS item.price).mul
              (match item.quantity with
               | some q => JSNum.num (qofInt q)
               | none => JSNum.nan)
            sku := item.sku })
        subtotal := parseFloatOrZero order.subtotal_price
        tax := parseFloatOrZero order.total_tax
        shipping := parseFloatOrZero
          (order.total_shipping_price_set.bind ShopifyShippingSet.amount)
        total := parseFloatOrZero order.total_price
        currency := order.currency
        status := order.financial_status
        fulfillmentStatus := order.fulfillment_status
        shippingAddress := order.shipping_address
        billingAddress := order.billing_address
        cancelledAt := none
        cancelReason := none
        dateCreated := order.created_at
        dateUpdated := order.updated_at
        lastUpdated := some now }

/-- The `$set` merge for a full order update document (`cancelledAt` and
`cancelReason` are never in this update, so they are always kept). -/
def mergeOrder (old upd : OrderDoc) : OrderDoc :=
  { upd with
    orderNumber := upd.orderNumber <|> old.orderNumber
    customerId := upd.customerId <|> old.customerId
    customerEmail := upd.customerEmail <|> old.customerEmail
    currency := upd.currency <|> old.currency
    status := upd.status <|> old.status
    fulfillmentStatus := upd.fulfillmentStatus <|> old.fulfillmentStatus
    shippingAddress := upd.shippingAddress <|> old.shippingAddress
    billingAddress := upd.billingAddress <|> old.billingAddress
    cancelledAt := old.cancelledAt
    cancelReason := old.cancelReason
    dateCreated := upd.dateCreated <|> old.dateCreated
    dateUpdated := upd.dateUpdated <|> old.dateUpdated
    lastUpdated := upd.lastUpdated <|> old.lastUpdated }

/-- The `$set` of `handleOrderCancelled`: exactly `status`, `cancelledAt`
and `lastUpdated`; every other stored field is untouched. An absent
`cancelled_at` in the payload is `undefined`, stripped from the `$set`. -/
def mergeOrderCancel (old : OrderDoc) (u : Option String × String) : OrderDoc :=
  { old with
    status := some "cancelled"
    cancelledAt := u.1 <|> old.cancelledAt
    lastUpdated := some u.2 }

/-! ## The Shopify webhook handlers -/

/-- Embedding of `handleProductUpdate` (shopifyWebhookHandler.js, 71-88): translate,
then upsert keyed by `shopifyId`. An error from translation or the upsert
is rethrown to the caller. -/
def handleProductUpdate (p : ShopifyProductPayload) (s : List (String × ProductDoc)) :
    Except String (List (String × ProductDoc)) :=
  (convertShopifyProduct p).map (fun d =>
    findOneAndUpdateUpsert mergeProduct id s d.shopifyId d)

/-- Embedding of `handleProductDelete` (shopifyWebhookHandler.js, 90-97):
`data.id.toString()` throws on an absent id. -/
def handleProductDelete (p : ShopifyProductPayload) (s : List (String × ProductDoc)) :
    Except String (List (String × ProductDoc)) :=
  match p.id with
  | none => .error "TypeError: cannot read toString of undefined"
  | some pid => .ok (findOneAndDelete s (idToString pid))

/-- Embedding of `handleCustomerUpdate` (shopifyWebhookHandler.js, 140-157). -/
def handleCustomerUpdate (c : ShopifyCustomerPayload) (s : List (String × CustomerDoc)) :
    Except String (List (String × CustomerDoc)) :=
  (convertShopifyCustomer c).map (fun d =>
    findOneAndUpdateUpsert mergeCustomer id s d.shopifyId d)

/-- Embedding of `handleCustomerDelete` (shopifyWebhookHandler.js, 159-166). -/
def handleCustomerDelete (c : ShopifyCustomerPayload) (s : List (String × CustomerDoc)) :
    Except String (List (String × CustomerDoc)) :=
  match c.id with
  | none => .error "TypeError: cannot read toString of undefined"
  | some cid => .ok (findOneAndDelete s (idToString cid))

/-- Embedding of `handleOrderUpdate` (shopifyWebhookHandler.js, 195-212). -/
def handleOrderUpdate (o : ShopifyOrderPayload) (now : String) (s : List (String × OrderDoc)) :
    Except String (List (String × OrderDoc)) :=
  (convertShopifyOrder o now).map (fun d =>
    findOneAndUpdateUpsert mergeOrder id s d.shopifyId d)

/-- Embedding of `handleOrderCancelled` (shopifyWebhookHandler.js, 214-227): a
`findOneAndUpdate` without `upsert` whose `$set` stamps only `status`,
`cancelledAt` and `lastUpdated`. -/
def handleOrderCancelled (o : ShopifyOrderPayload) (now : String) (s : List (String × OrderDoc)) :
    Except String (List (String × OrderDoc)) :=
  match o.id with
  | none => .error "TypeError: cannot read toString of undefined"
  | some oid =>
      .ok (findOneAndUpdateHit mergeOrderCancel s (idToString oid) (o.cancelled_at, now))

/-- The three local mirror collections. -/
structure LocalStore where
  products : List (String × ProductDoc)
  customers : List (String × CustomerDoc)
  orders : List (String × OrderDoc)
deriving DecidableEq, Repr

/-- The decoded JSON body handed to `handleWebhook`; which shape the
handler reads is decided by the topic, and a body that decodes to a
different shape appears to the handler as a payload with the expected
fields absent. -/
inductive WebhookData where
  | product (p : ShopifyProductPayload)
  | customer (c : ShopifyCustomerPayload)
  | order (o : ShopifyOrderPayload)
deriving DecidableEq, Repr

/-- View of the decoded body as a product payload. -/
def WebhookData.asProduct : WebhookData → ShopifyProductPayload
  | .product p => p
  | _ => emptyProductPayload

/-- View of the decoded body as a customer payload. -/
def WebhookData.asCustomer : WebhookData → ShopifyCustomerPayload
  | .customer c => c
  | _ => emptyCustomerPayload

/-- View of the decoded body as an order payload. -/
def WebhookData.asOrder : WebhookData → ShopifyOrderPayload
  | .order o => o
  | _ => emptyOrderPayload

/-- Embedding of `handleWebhook(topic, data)` (shopifyWebhookHandler.js, 26-67):
dispatch on the topic string; an unrecognized topic is logged and ignored.
The surrounding `try`/`catch` turns a handler error into
`{success: false}` with the store untouched (each handler performs at most
one store operation, after translation). -/
def handleWebhook (topic : String) (data : WebhookData) (now : String)
    (st : LocalStore) : Bool × LocalStore :=
  if topic = "products/create" ∨ topic = "products/update" then
    match handleProductUpdate data.asProduct st.products with
    | .ok ps => (true, { st with products := ps })
    | .error _ => (false, st)
  else if topic = "products/delete" then
    match handleProductDelete data.asProduct st.products with
    | .ok ps => (true, { st with products := ps })
    | .error _ => (false, st)
  else if topic = "customers/create" ∨ topic = "customers/update" then
    match handleCustomerUpdate data.asCustomer st.customers with
    | .ok cs => (true, { st with customers := cs })
    | .error _ => (false, st)
  else if topic = "customers/delete" then
    match handleCustomerDelete data.asCustomer st.customers with
    | .ok cs => (true, { st with customers := cs })
    | .error _ => (false, st)
  else if topic = "orders/create" ∨ topic = "orders/updated" then
    match handleOrderUpdate data.asOrder now st.orders with
    | .ok os => (true, { st with orders := os })
    | .error _ => (false, st)
  else if topic = "orders/cancelled" then
    match handleOrderCancelled data.asOrder now st.orders with
    | .ok os => (true, { st with orders := os })
    | .error _ => (false, st)
  else
    (true, st)

/-! ## The signature verifier and the webhook endpoint -/

/-- The secret lookup `process.env.SHOPIFY_WEBHOOK_SECRET || process.env.SHOPIFY_API_SECRET`:
`||` falls through on an unset or empty variable. Environment values are
modelled by their UTF-8 bytes. -/
def jsOrEnv (a b : Option (List Nat)) : Option (List Nat) :=
  match a with
  | some s => if s = [] then b else some s
  | none => b

/-- Embedding of `verifyWebhook(body, hmacHeader)` (shopifyWebhookHandler.js, 13-21):
recompute `base64(HMAC-SHA-256(secret, body))` over the raw body bytes and
compare with the header by `===`. When neither environment variable is set
the secret is `undefined` and `crypto.createHmac` throws
(`ERR_INVALID_ARG_TYPE`) instead of returning a verdict. -/
def verifyWebhook (env1 env2 : Option (List Nat)) (body : List Nat)
    (hmacHeader : Option (List Char)) : Except String Bool :=
  match jsOrEnv env1 env2 with
  | none => .error "TypeError ERR_INVALID_ARG_TYPE: invalid key argument"
  | some secret => .ok (jsStrEqOpt (base64Encode (hmacSha256 secret body)) hmacHeader)

/-- The signature the verifier recomputes for a given secret and body. -/
def computedSigChars (secret body : List Nat) : List Char :=
  base64Encode (hmacSha256 secret body)

/-- Character comparisons spent by the `hash === hmacHeader` comparison of
`verifyWebhook` (0 when the verifier throws before comparing, or when the
header is absent or of a different length). -/
def verifyCmpCost (env1 env2 : Option (List Nat)) (body : List Nat)
    (hmacHeader : Option (List Char)) : Nat :=
  match jsOrEnv env1 env2 with
  | none => 0
  | some secret =>
      match hmacHeader with
      | none => 0
      | some h => (jsStrEqCost (computedSigChars secret body) h).2

/-- An HTTP response of the webhook endpoint, as status plus the JSON
fields the route writes. -/
structure HttpResp where
  status : Nat
  success : Option Bool
  error : Option String
deriving DecidableEq, Repr

/-- Embedding of `POST /api/shopify/webhook` (server.js, 91-122): verify over the raw
body; on a mismatch respond `401 {error: "Invalid signature"}`; on a match
respond `200 {success: true}` immediately and process asynchronously (an
async error is logged, never surfaced — the handler result does not change
the response); an exception inside the route (e.g. from `createHmac`) is
caught and answered with 500. `data` is the `JSON.parse` of the raw body;
`now` stands for the clock. -/
def shopifyWebhookEndpoint (env1 env2 : Option (List Nat)) (st : LocalStore)
    (body : List Nat) (hmacHeader : Option (List Char)) (topic : String)
    (data : WebhookData) (now : String) : HttpResp × LocalStore :=
  match verifyWebhook env1 env2 body hmacHeader with
  | .error e => ({ status := 500, success := some false, error := some e }, st)
  | .ok false => ({ status := 401, success := none, error := some "Invalid signature" }, st)
  | .ok true => ({ status := 200, success := some true, error := none },
      (handleWebhook topic data now st).2)

/-! ## The bulk product sync route -/

/-- The JSON body of a sync route response (`message` omitted). -/
structure SyncResp where
  success : Bool
  synced : Nat
  errors : Nat
  total : Nat
deriving DecidableEq, Repr

/-- The per-item loop of `POST /api/shopify/sync/products` (server.js,
205-237): each fetched product independently goes through
`handleProductUpdate`; a success increments `synced`, an exception is
caught and increments `errors`, and the loop continues. -/
def syncProductsLoop : List ShopifyProductPayload → List (String × ProductDoc) →
    List (String × ProductDoc) × Nat × Nat
  | [], s => (s, 0, 0)
  | p :: ps, s =>
    match handleProductUpdate p s with
    | .ok s1 => let r := syncProductsLoop ps s1; (r.1, r.2.1 + 1, r.2.2)
    | .error _ => let r := syncProductsLoop ps s; (r.1, r.2.1, r.2.2 + 1)

/-- Embedding of `POST /api/shopify/sync/products`: the fetched page is the list the
Platform Client returned; the response reports `synced`, `errors` and
`total = products.length`. -/
def syncProductsRoute (fetched : List ShopifyProductPayload)
    (s : List (String × ProductDoc)) : SyncResp × List (String × ProductDoc) :=
  let r := syncProductsLoop fetched s
  ({ success := true, synced := r.2.1, errors := r.2.2, total := fetched.length }, r.1)

/-! ## The Lightspeed item translator

`services/lightspeedWebhookHandler.js`. Only the product path is embedded:
it is the second writer named by the stock-consistency claim. Chains such
as `item.Manufacturer?.name` are flattened to the single optional leaf the
code reads. -/

/-- A Lightspeed item payload, restricted to the fields
`convertItemToProduct` reads. -/
structure LightspeedItemPayload where
  itemID : Option Nat
  description : Option String
  customSku : Option String
  longDescription : Option String
  manufacturerName : Option String
  categoryName : Option String
  priceAmount : Option String
  imageURLs : Option (List (Option String))
  qoh : Option String
  createTime : Option String
  timeStamp : Option String
deriving DecidableEq, Repr

/-- The canonical product document written by the Lightspeed handler
(fields of `convertItemToProduct`; the key field is `lightspeedId`). -/
structure LSProductDoc where
  lightspeedId : Option Nat
  name : Option String
  brand : String
  category : String
  price : JSNum
  description : String
  imageUrl : String
  images : List (Option String)
  inStock : Bool
  stockQuantity : JSNum
  sku : Option String
  dateAdded : Option String
  lastUpdated : String
deriving DecidableEq, Repr

/-- Embedding of `convertItemToProduct` (lightspeedWebhookHandler.js, 91-107); `now`
stands for the `new Date()` fallback of `lastUpdated`. -/
def convertItemToProduct (item : LightspeedItemPayload) (now : String) : LSProductDoc :=
  { lightspeedId := item.itemID
    name := jsOrOpt item.description item.customSku
    brand := jsOrS item.manufacturerName "Unknown"
    category := jsOrS item.categoryName "Uncategorized"
    price := parseFloatOrZero item.priceAmount
    description := jsOrS item.longDescription (jsOrS item.description "")
    imageUrl := jsOrS ((item.imageURLs.bind List.head?).bind id)
      "https://via.placeholder.com/400"
    images := item.imageURLs.getD []
    inStock := (parseIntOrZero item.qoh).gtZero
    stockQuantity := parseIntOrZero item.qoh
    sku := item.customSku
    dateAdded := item.createTime
    lastUpdated := jsOrS item.timeStamp now }

/-- The `$set` merge for a Lightspeed product update document. -/
def mergeLSProduct (old upd : LSProductDoc) : LSProductDoc :=
  { upd with
    lightspeedId := upd.lightspeedId <|> old.lightspeedId
    name := upd.name <|> old.name
    sku := upd.sku <|> old.sku
    dateAdded := upd.dateAdded <|> old.dateAdded }

/-- Embedding of `handleItemUpdate(itemId)` (lightspeedWebhookHandler.js, 59-81): the
item is fetched from the platform by id, translated, and upserted keyed by
the `itemId` the webhook carried; the fetched item is a parameter here. -/
def handleItemUpdate (itemId : String) (item : LightspeedItemPayload) (now : String)
    (s : List (String × LSProductDoc)) : List (String × LSProductDoc) :=
  findOneAndUpdateUpsert mergeLSProduct id s itemId (convertItemToProduct item now)

/-- Whether the per-item product sync step succeeds for a payload: the
only throwing access on this path is `product.id.toString()`, so an item
throws during translation or upsert exactly when its `id` is absent. -/
def syncOk (p : ShopifyProductPayload) : Bool := p.id.isSome

/-- The store key under which the document of a payload is upserted. -/
def idKey (p : ShopifyProductPayload) : String := (p.id.map idToString).getD ""

/-! ## Concrete sample payloads and documents (used by the witnesses) -/

/-- A concrete variant payload (price arrives as the string `"9.99"`). -/
def sampleVariantPayload : ShopifyVariantPayload :=
  { id := some 11, title := none, price := some "9.99",
    compare_at_price := none, sku := none, barcode := none,
    inventory_quantity := some 5 }

/-- A concrete Shopify product payload (the §8 scenario body). -/
def sampleProductPayload : ShopifyProductPayload :=
  { id := some 123, title := some "Mop", vendor := some "Acme",
    product_type := none, body_html := none, tags := none,
    variants := some [sampleVariantPayload],
    images := none, image := none, created_at := none, updated_at := none }

/-- The stored variant of `sampleProductPayload`. -/
def sampleVariantDoc : VariantDoc :=
  { id := some 11, title := none, price := JSNum.num ⟨999, 100⟩,
    sku := none, inventoryQuantity := some 5 }

/-- The canonical document `convertShopifyProduct` produces for
`sampleProductPayload`. -/
def sampleProductDoc : ProductDoc :=
  { shopifyId := "123", name := some "Mop", brand := "Acme",
    category := "Uncategorized", price := JSNum.num ⟨999, 100⟩,
    compareAtPrice := JSNum.zero, description := "",
    imageUrl := "https://via.placeholder.com/400", images := [],
    inStock := true, stockQuantity := 5, sku := none, barcode := none,
    tags := [], variants := [sampleVariantDoc],
    isNew := false, isFeatured := false, dateAdded := none, lastUpdated := none }

/-- A concrete Lightspeed item payload. -/
def sampleItemPayload : LightspeedItemPayload :=
  { itemID := some 7, description := some "Vac", customSku := none,
    longDescription := none, manufacturerName := none, categoryName := none,
    priceAmount := some "10", imageURLs := none, qoh := some "3",
    createTime := none, timeStamp := some "2024-01-01" }

/-- The canonical document `convertItemToProduct` produces for
`sampleItemPayload`. -/
def sampleLSDoc : LSProductDoc :=
  { lightspeedId := some 7, name := some "Vac", brand := "Unknown",
    category := "Uncategorized", price := JSNum.num ⟨10, 1⟩, description := "Vac",
    imageUrl := "https://via.placeholder.com/400", images := [],
    inStock := true, stockQuantity := JSNum.num ⟨3, 1⟩, sku := none,
    dateAdded := none, lastUpdated := "2024-01-01" }

/-- A concrete payload with vendor, product type and images all absent. -/
def bareProductPayload : ShopifyProductPayload :=
  { emptyProductPayload with id := some 9, title := some "X" }

/-- The document `convertShopifyProduct` produces for
`bareProductPayload`. -/
def bareProductDoc : ProductDoc :=
  { shopifyId := "9", name := some "X", brand := "Unknown",
    category := "Uncategorized", price := JSNum.zero,
    compareAtPrice := JSNum.zero, description := "",
    imageUrl := "https://via.placeholder.com/400", images := [],
    inStock := false, stockQuantity := 0, sku := none, barcode := none,
    tags := [], variants := [], isNew := false, isFeatured := false,
    dateAdded := none, lastUpdated := none }

/-- A payload whose main variant price is the unparsable string `"abc"`. -/
def unparsablePricePayload : ShopifyProductPayload :=
  { emptyProductPayload with
    id := some 5,
    variants := some [{ emptyVariantPayload with price := some "abc" }] }

/-- The variant stored for the `"abc"` payload (price `NaN`). -/
def unparsableVariantDoc : VariantDoc :=
  { id := none, title := none, price := JSNum.nan, sku := none,
    inventoryQuantity := none }

/-- The document `convertShopifyProduct` produces for the `"abc"` payload:
the price is `NaN`. -/
def unparsablePriceDoc : ProductDoc :=
  { shopifyId := "5", name := none, brand := "Unknown",
    category := "Uncategorized", price := JSNum.nan,
    compareAtPrice := JSNum.zero, description := "",
    imageUrl := "https://via.placeholder.com/400", images := [],
    inStock := false, stockQuantity := 0, sku := none, barcode := none,
    tags := [], variants := [unparsableVariantDoc],
    isNew := false, isFeatured := false, dateAdded := none, lastUpdated := none }

/-- A concrete stored order. -/
def sampleOrderDoc : OrderDoc :=
  { shopifyId := "42", orderNumber := some 1001, customerId := some "c1",
    customerName := "Ann B", customerEmail := some "ann@example.com",
    items := [], subtotal := JSNum.num ⟨5, 1⟩, tax := JSNum.zero,
    shipping := JSNum.zero, total := JSNum.num ⟨5, 1⟩, currency := some "USD",
    status := some "paid", fulfillmentStatus := none,
    shippingAddress := none, billingAddress := none,
    cancelledAt := none, cancelReason := none,
    dateCreated := some "2024-02-02", dateUpdated := none,
    lastUpdated := some "2024-02-03" }

/-- The cancellation payload for order 42. -/
def sampleCancelPayload : ShopifyOrderPayload :=
  { emptyOrderPayload with id := some 42, cancelled_at := some "2024-05-05" }

/-- A store with one mirrored product, to observe that rejection leaves it
untouched. -/
def sampleStore : LocalStore :=
  { products := [("123", sampleProductDoc)], customers := [], orders := [] }

/-- A payload whose id is absent: the one item of the batch that throws. -/
def noIdPayload : ShopifyProductPayload :=
  { emptyProductPayload with title := some "NoId" }

/-! ## Validation of the crypto embedding against published test vectors -/

/-- FIPS 180-4 test vector: SHA-256 of the empty message. -/
example : sha256 [] =
    [0xe3, 0xb0, 0xc4, 0x42, 0x98, 0xfc, 0x1c, 0x14, 0x9a, 0xfb, 0xf4, 0xc8,
     0x99, 0x6f, 0xb9, 0x24, 0x27, 0xae, 0x41, 0xe4, 0x64, 0x9b, 0x93, 0x4c,
     0xa4, 0x95, 0x99, 0x1b, 0x78, 0x52, 0xb8, 0x55] := by decide

/-- FIPS 180-4 test vector: SHA-256 of `"abc"`. -/
example : sha256 (asciiBytes "abc") =
    [0xba, 0x78, 0x16, 0xbf, 0x8f, 0x01, 0xcf, 0xea, 0x41, 0x41, 0x40, 0xde,
     0x5d, 0xae, 0x22, 0x23, 0xb0, 0x03, 0x61, 0xa3, 0x96, 0x17, 0x7a, 0x9c,
     0xb4, 0x10, 0xff, 0x61, 0xf2, 0x00, 0x15, 0xad] := by decide

/-- RFC 4231 test case 2: HMAC-SHA-256 with key `"Jefe"`. -/
example : hmacSha256 (asciiBytes "Jefe")
      (asciiBytes "what do ya want for nothing?") =
    [0x5b, 0xdc, 0xc1, 0x46, 0xbf, 0x60, 0x75, 0x4e, 0x6a, 0x04, 0x24, 0x26,
     0x08, 0x95, 0x75, 0xc7, 0x5a, 0x00, 0x3f, 0x08, 0x9d, 0x27, 0x39, 0x83,
     0x9d, 0xec, 0x58, 0xb9, 0x64, 0xec, 0x38, 0x43] := by decide

/-- Base64 test vectors. -/
example : base64Encode (asciiBytes "Man") = "TWFu".toList := by decide

example : base64Encode (asciiBytes "Ma") = "TWE=".toList := by decide

example : base64Encode (asciiBytes "M") = "TQ==".toList := by decide

/-! ## Store lemmas -/

/-- Comparison `x > 0` agrees with `(x || 0) > 0` on a possibly-absent integer. -/
theorem jsIntGtZero_getD (iq : Option Int) : jsIntGtZero iq = decide (0 < iq.getD 0) := by
  cases iq <;> simp [jsIntGtZero]

/-- Absorption `a <|> (a <|> b) = a <|> b` for `Option`: remerging the same update is
absorbed. -/
theorem orElse_self_absorb {α : Type} (a b : Option α) : (a <|> (a <|> b)) = (a <|> b) := by
  cases a <;> rfl

/-- Looking up the upserted key: the merged document on a hit, the inserted
document on a miss. -/
theorem findDoc_upsert_self {α β : Type} (merge : α → β → α) (ins : β → α)
    (s : List (String × α)) (k : String) (u : β) :
    findDoc (findOneAndUpdateUpsert merge ins s k u) k =
      some (match findDoc s k with
            | some v => merge v u
            | none => ins u) := by
  induction s with
  | nil => simp [findOneAndUpdateUpsert, findDoc]
  | cons hd tl ih =>
      obtain ⟨k1, v⟩ := hd
      by_cases hk : k1 = k
      · simp [findOneAndUpdateUpsert, findDoc, hk]
      · simp [findOneAndUpdateUpsert, findDoc, hk, ih]

/-- Upserting one key leaves every other key unchanged. -/
theorem findDoc_upsert_ne {α β : Type} (merge : α → β → α) (ins : β → α)
    (s : List (String × α)) (k k1 : String) (u : β) (hne : k ≠ k1) :
    findDoc (findOneAndUpdateUpsert merge ins s k1 u) k = findDoc s k := by
  induction s with
  | nil => simp [findOneAndUpdateUpsert, findDoc, Ne.symm hne]
  | cons hd tl ih =>
      obtain ⟨k2, v⟩ := hd
      by_cases hk : k2 = k1
      · subst hk
        simp [findOneAndUpdateUpsert, findDoc, Ne.symm hne]
      · by_cases hk2 : k2 = k
        · simp [findOneAndUpdateUpsert, findDoc, hk, hk2, hne]
        · simp [findOneAndUpdateUpsert, findDoc, hk, hk2, ih]

/-- Upserting the same update twice converges after the first application,
provided the merge absorbs itself. -/
theorem upsert_idem {α β : Type} (merge : α → β → α) (ins : β → α)
    (s : List (String × α)) (k : String) (u : β)
    (habs : ∀ v, merge (merge v u) u = merge v u)
    (hins : merge (ins u) u = ins u) :
    findOneAndUpdateUpsert merge ins (findOneAndUpdateUpsert merge ins s k u) k u =
      findOneAndUpdateUpsert merge ins s k u := by
  induction s with
  | nil => simp [findOneAndUpdateUpsert, hins]
  | cons hd tl ih =>
      obtain ⟨k1, v⟩ := hd
      by_cases hk : k1 = k
      · simp [findOneAndUpdateUpsert, hk, habs]
      · simp [findOneAndUpdateUpsert, hk, ih]

/-- Idempotence `a <|> a = a` for `Option`. -/
theorem orElse_self {α : Type} (a : Option α) : (a <|> a) = a := by
  cases a <;> rfl

/-- A product update document merged over itself is itself. -/
theorem mergeProduct_self (u : ProductDoc) : mergeProduct u u = u := by
  cases u
  simp [mergeProduct, orElse_self]

/-- Remerging the same product update document is absorbed. -/
theorem mergeProduct_absorb (v u : ProductDoc) :
    mergeProduct (mergeProduct v u) u = mergeProduct v u := by
  cases v; cases u
  simp [mergeProduct, orElse_self_absorb]

/-- Looking up the updated key after a hit-only `findOneAndUpdate`. -/
theorem findDoc_hit_self {α β : Type} (merge : α → β → α)
    (s : List (String × α)) (k : String) (u : β) (v : α)
    (h : findDoc s k = some v) :
    findDoc (findOneAndUpdateHit merge s k u) k = some (merge v u) := by
  induction s with
  | nil => simp [findDoc] at h
  | cons hd tl ih =>
      obtain ⟨k1, w⟩ := hd
      by_cases hk : k1 = k
      · subst hk
        simp [findDoc] at h
        subst h
        simp [findOneAndUpdateHit, findDoc]
      · simp [findDoc, hk] at h
        simp [findOneAndUpdateHit, findDoc, hk, ih h]

/-- A hit-only `findOneAndUpdate` leaves every other key unchanged. -/
theorem findDoc_hit_ne {α β : Type} (merge : α → β → α)
    (s : List (String × α)) (k k1 : String) (u : β) (hne : k ≠ k1) :
    findDoc (findOneAndUpdateHit merge s k1 u) k = findDoc s k := by
  induction s with
  | nil => simp [findOneAndUpdateHit, findDoc]
  | cons hd tl ih =>
      obtain ⟨k2, v⟩ := hd
      by_cases hk : k2 = k1
      · subst hk
        simp [findOneAndUpdateHit, findDoc, Ne.symm hne]
      · by_cases hk2 : k2 = k
        · simp [findOneAndUpdateHit, findDoc, hk, hk2, hne]
        · simp [findOneAndUpdateHit, findDoc, hk, hk2, ih]

/-! ## C2 — idempotence of the product upsert -/

/-- Claim C2: for every valid external product payload, applying the
product upsert (translate with `convertShopifyProduct`, then upsert keyed
by `shopifyId`) twice in succession leaves the stored collection in the
same final state as applying it once: a second application returns exactly
the state the first produced. -/
theorem claim2_upsert_translate_idempotent (p : ShopifyProductPayload)
    (s s1 : List (String × ProductDoc))
    (h : handleProductUpdate p s = .ok s1) :
    handleProductUpdate p s1 = .ok s1 := by
  cases hc : convertShopifyProduct p with
  | error e => simp [handleProductUpdate, hc, Except.map] at h
  | ok d =>
      simp [handleProductUpdate, hc, Except.map] at h
      subst h
      simp [handleProductUpdate, hc, Except.map]
      exact upsert_idem mergeProduct id s d.shopifyId d
        (fun v => mergeProduct_absorb v d) (mergeProduct_self d)

/-- Witness for C2 at a concrete payload: the first upsert inserts the
translated document, and the theorem applies to give convergence. -/
theorem claim2_witness :
    handleProductUpdate sampleProductPayload [] = .ok [("123", sampleProductDoc)] ∧
    handleProductUpdate sampleProductPayload [("123", sampleProductDoc)] =
      .ok [("123", sampleProductDoc)] :=
  ⟨by rfl, claim2_upsert_translate_idempotent sampleProductPayload []
    [("123", sampleProductDoc)] (by rfl)⟩

/-! ## C4 — stock consistency -/

/-- A document produced by `convertShopifyProduct` has
`inStock == (stockQuantity > 0)`. -/
theorem shopify_converted_stock (p : ShopifyProductPayload) (u : ProductDoc)
    (hu : convertShopifyProduct p = .ok u) :
    u.inStock = decide (0 < u.stockQuantity) := by
  cases hpi : p.id with
  | none => simp [convertShopifyProduct, hpi] at hu
  | some pid =>
      simp [convertShopifyProduct, hpi] at hu
      subst hu
      simp [jsIntGtZero_getD]

/-- Claim C4: after every product upsert, by either writer (the
Shopify-style translator or the Lightspeed-style translator), the stored
product record satisfies `inStock == (stockQuantity > 0)` (in JavaScript
number semantics, where `NaN > 0` is false). -/
theorem claim4_stock_consistency
    (p : ShopifyProductPayload) (s s1 : List (String × ProductDoc)) (u d : ProductDoc)
    (itemId now : String) (item : LightspeedItemPayload)
    (sl : List (String × LSProductDoc)) (dl : LSProductDoc)
    (h1 : handleProductUpdate p s = .ok s1)
    (hu : convertShopifyProduct p = .ok u)
    (hd : findDoc s1 u.shopifyId = some d)
    (hl : findDoc (handleItemUpdate itemId item now sl) itemId = some dl) :
    d.inStock = decide (0 < d.stockQuantity) ∧ dl.inStock = dl.stockQuantity.gtZero := by
  constructor
  · simp [handleProductUpdate, hu, Except.map] at h1
    subst h1
    rw [findDoc_upsert_self] at hd
    cases hfs : findDoc s u.shopifyId with
    | some v =>
        rw [hfs] at hd
        have hd' := Option.some.inj hd
        subst hd'
        simpa [mergeProduct] using shopify_converted_stock p u hu
    | none =>
        rw [hfs] at hd
        have hd' := Option.some.inj hd
        subst hd'
        exact shopify_converted_stock p u hu
  · rw [handleItemUpdate, findDoc_upsert_self] at hl
    cases hfs : findDoc sl itemId with
    | some v =>
        rw [hfs] at hl
        have hl' := Option.some.inj hl
        subst hl'
        simp [mergeLSProduct, convertItemToProduct]
    | none =>
        rw [hfs] at hl
        have hl' := Option.some.inj hl
        subst hl'
        simp [convertItemToProduct]

/-- Witness for C4: one concrete upsert through each writer. -/
theorem claim4_witness :
    (handleProductUpdate sampleProductPayload [] = .ok [("123", sampleProductDoc)] ∧
     convertShopifyProduct sampleProductPayload = .ok sampleProductDoc ∧
     findDoc [("123", sampleProductDoc)] sampleProductDoc.shopifyId = some sampleProductDoc ∧
     findDoc (handleItemUpdate "7" sampleItemPayload "now" []) "7" = some sampleLSDoc) ∧
    (sampleProductDoc.inStock = decide (0 < sampleProductDoc.stockQuantity) ∧
     sampleLSDoc.inStock = sampleLSDoc.stockQuantity.gtZero) :=
  ⟨⟨by rfl, by rfl, by rfl, by rfl⟩,
   claim4_stock_consistency sampleProductPayload [] [("123", sampleProductDoc)]
     sampleProductDoc sampleProductDoc "7" "now" sampleItemPayload [] sampleLSDoc
     (by rfl) (by rfl) (by rfl) (by rfl)⟩

/-! ## C7 — default substitution for missing optional fields -/

/-- Claim C7: translating a product payload with no vendor, no product
type and no images yields `brand = "Unknown"`, `category = "Uncategorized"`,
the placeholder image URL, and an empty image list. -/
theorem claim7_default_substitution (p : ShopifyProductPayload) (u : ProductDoc)
    (h : convertShopifyProduct p = .ok u)
    (hv : p.vendor = none) (ht : p.product_type = none)
    (hi : p.images = none) (hm : p.image = none) :
    u.brand = "Unknown" ∧ u.category = "Uncategorized" ∧
    u.imageUrl = "https://via.placeholder.com/400" ∧ u.images = [] := by
  cases hpi : p.id with
  | none => simp [convertShopifyProduct, hpi] at h
  | some pid =>
      simp [convertShopifyProduct, hpi] at h
      subst h
      simp [jsOrS, hv, ht, hi, hm]

/-- Witness for C7 at a concrete bare payload. -/
theorem claim7_witness :
    (convertShopifyProduct bareProductPayload = .ok bareProductDoc ∧
     bareProductPayload.vendor = none ∧ bareProductPayload.product_type = none ∧
     bareProductPayload.images = none ∧ bareProductPayload.image = none) ∧
    (bareProductDoc.brand = "Unknown" ∧ bareProductDoc.category = "Uncategorized" ∧
     bareProductDoc.imageUrl = "https://via.placeholder.com/400" ∧
     bareProductDoc.images = []) :=
  ⟨⟨by rfl, by rfl, by rfl, by rfl, by rfl⟩,
   claim7_default_substitution bareProductPayload bareProductDoc
     (by rfl) (by rfl) (by rfl) (by rfl) (by rfl)⟩

/-! ## C6 — numeric strings that fail to parse (corrected)

The spec sentence asserts an explicit fallback of zero on parse failure.
The code computes `parseFloat(mainVariant.price || 0)`: the `|| 0` fallback
fires only on a missing or empty value; a non-empty string that fails to
parse goes through `parseFloat` and yields `NaN`, not `0`. -/

/-- Counterexample to C6 as stated: at a concrete payload whose variant
price is the non-numeric string `"abc"`, the translator yields `NaN` for
`price`, not the claimed `0`. -/
theorem claim6_counterexample :
    Except.map ProductDoc.price (convertShopifyProduct unparsablePricePayload) ≠
      .ok JSNum.zero ∧
    Except.map ProductDoc.price (convertShopifyProduct unparsablePricePayload) =
      .ok JSNum.nan := by
  have hval : Except.map ProductDoc.price (convertShopifyProduct unparsablePricePayload) =
      .ok JSNum.nan := by rfl
  refine ⟨?_, hval⟩
  rw [hval]
  simp [JSNum.zero]

/-- C6 amended: the translated price is exactly `parseFloat(price || 0)`
of the main variant — an absent or empty price falls back to `0`, while a
non-empty string that fails to parse yields `NaN` (stored as such, with no
zero substitution). -/
theorem claim6_numeric_fallback (p : ShopifyProductPayload) (u : ProductDoc)
    (h : convertShopifyProduct p = .ok u) :
    u.price = parseFloatOrZero ((p.variants.getD []).headD emptyVariantPayload).price ∧
    parseFloatOrZero none = JSNum.zero ∧
    parseFloatOrZero (some "") = JSNum.zero ∧
    (∀ str : String, str ≠ "" → parseFloatChars str.toList = JSNum.nan →
      parseFloatOrZero (some str) = JSNum.nan) := by
  refine ⟨?_, by rfl, by rfl, ?_⟩
  · cases hpi : p.id with
    | none => simp [convertShopifyProduct, hpi] at h
    | some pid =>
        simp [convertShopifyProduct, hpi] at h
        subst h
        simp
  · intro str hne hnan
    simp [parseFloatOrZero, hne]
    exact hnan

/-- Witness for the amended C6 at the `"abc"` payload. -/
theorem claim6_witness :
    convertShopifyProduct unparsablePricePayload = .ok unparsablePriceDoc ∧
    unparsablePriceDoc.price =
      parseFloatOrZero
        ((unparsablePricePayload.variants.getD []).headD emptyVariantPayload).price :=
  ⟨by rfl, (claim6_numeric_fallback unparsablePricePayload unparsablePriceDoc (by rfl)).1⟩

/-! ## C9 — cancellation stamps only its three fields -/

/-- Claim C9: for an order already present in the store, handling
`orders/cancelled` updates only `status` (to `"cancelled"`), `cancelledAt`
and `lastUpdated`; every other stored field of that order keeps its
previous value, and every other order is untouched. -/
theorem claim9_cancellation_frame (o : ShopifyOrderPayload) (now : String)
    (s s1 : List (String × OrderDoc)) (oid : Nat) (r : OrderDoc)
    (hid : o.id = some oid)
    (hmem : findDoc s (idToString oid) = some r)
    (h : handleOrderCancelled o now s = .ok s1) :
    findDoc s1 (idToString oid) =
      some { r with status := some "cancelled",
                    cancelledAt := o.cancelled_at <|> r.cancelledAt,
                    lastUpdated := some now } ∧
    ∀ k, k ≠ idToString oid → findDoc s1 k = findDoc s k := by
  simp [handleOrderCancelled, hid] at h
  subst h
  constructor
  · simpa [mergeOrderCancel] using
      findDoc_hit_self mergeOrderCancel s (idToString oid) (o.cancelled_at, now) r hmem
  · intro k hk
    exact findDoc_hit_ne mergeOrderCancel s k (idToString oid) _ hk

/-- Witness for C9 at a concrete stored order. -/
theorem claim9_witness :
    (sampleCancelPayload.id = some 42 ∧
     findDoc [("42", sampleOrderDoc)] (idToString 42) = some sampleOrderDoc ∧
     handleOrderCancelled sampleCancelPayload "2024-05-06" [("42", sampleOrderDoc)] =
       .ok [("42", mergeOrderCancel sampleOrderDoc (some "2024-05-05", "2024-05-06"))]) ∧
    (findDoc [("42", mergeOrderCancel sampleOrderDoc (some "2024-05-05", "2024-05-06"))]
        (idToString 42) =
      some { sampleOrderDoc with
             status := some "cancelled",
             cancelledAt := some "2024-05-05" <|> sampleOrderDoc.cancelledAt,
             lastUpdated := some "2024-05-06" } ∧
     ∀ k, k ≠ idToString 42 →
       findDoc [("42", mergeOrderCancel sampleOrderDoc (some "2024-05-05", "2024-05-06"))] k =
         findDoc [("42", sampleOrderDoc)] k) :=
  ⟨⟨by rfl, by rfl, by rfl⟩,
   claim9_cancellation_frame sampleCancelPayload "2024-05-06"
     [("42", sampleOrderDoc)] _ 42 sampleOrderDoc (by rfl) (by rfl) (by rfl)⟩

/-! ## The `===` comparison is exact string equality -/

/-- The scan verdict of two equal-length strings is their equality. -/
theorem prefixScan_fst (s t : List Char) (hlen : s.length = t.length) :
    ((prefixScan s t).1 = true) ↔ s = t := by
  induction s generalizing t with
  | nil =>
      cases t with
      | nil => simp [prefixScan]
      | cons b t => simp at hlen
  | cons a s ih =>
      cases t with
      | nil => simp at hlen
      | cons b t =>
          by_cases hab : a = b
          · subst hab
            simp [prefixScan, ih t (by simpa using hlen)]
          · simp [prefixScan, hab]

/-- Comparison `s === t` is exact string equality. -/
theorem jsStrEqCost_fst (s t : List Char) : ((jsStrEqCost s t).1 = true) ↔ s = t := by
  by_cases hlen : s.length = t.length
  · simp only [jsStrEqCost, if_pos hlen]
    exact prefixScan_fst s t hlen
  · simp only [jsStrEqCost, if_neg hlen]
    simp
    exact fun h => hlen (by rw [h])

/-- Comparison `s === t` on a possibly-absent right operand is equality with `some`. -/
theorem jsStrEqOpt_eq (s : List Char) (t : Option (List Char)) :
    (jsStrEqOpt s t = true) ↔ t = some s := by
  cases t with
  | none => simp [jsStrEqOpt]
  | some t0 => simp [jsStrEqOpt, jsStrEqCost_fst s t0, eq_comm]

/-! ## C5 — an invalid signature is rejected with no store operation -/

/-- Claim C5: for every webhook delivery whose signature header does not
match the recomputed HMAC of the raw body, the endpoint responds
`401 {error: "Invalid signature"}` and the local store is unchanged — no
handler runs. -/
theorem claim5_invalid_signature_rejected (env1 env2 : Option (List Nat))
    (secret : List Nat) (st : LocalStore) (body : List Nat)
    (hmacHeader : Option (List Char)) (topic : String) (data : WebhookData)
    (now : String)
    (hsec : jsOrEnv env1 env2 = some secret)
    (hbad : hmacHeader ≠ some (computedSigChars secret body)) :
    shopifyWebhookEndpoint env1 env2 st body hmacHeader topic data now =
      ({ status := 401, success := none, error := some "Invalid signature" }, st) := by
  have hfalse : jsStrEqOpt (computedSigChars secret body) hmacHeader = false := by
    cases hjs : jsStrEqOpt (computedSigChars secret body) hmacHeader with
    | false => rfl
    | true => exact absurd ((jsStrEqOpt_eq _ _).mp hjs) hbad
  have hv : verifyWebhook env1 env2 body hmacHeader = .ok false := by
    simp only [computedSigChars] at hfalse
    simp [verifyWebhook, hsec, hfalse]
  simp [shopifyWebhookEndpoint, hv]

/-- Witness for C5: a delivery carrying a wrong signature header. -/
theorem claim5_witness :
    (jsOrEnv none (some (asciiBytes "shhh")) = some (asciiBytes "shhh") ∧
     some "deadbeef".toList ≠
       some (computedSigChars (asciiBytes "shhh") (asciiBytes "body"))) ∧
    shopifyWebhookEndpoint none (some (asciiBytes "shhh")) sampleStore
        (asciiBytes "body") (some "deadbeef".toList) "products/update"
        (WebhookData.product sampleProductPayload) "now" =
      ({ status := 401, success := none, error := some "Invalid signature" },
       sampleStore) :=
  ⟨⟨by rfl, by decide⟩,
   claim5_invalid_signature_rejected none (some (asciiBytes "shhh"))
     (asciiBytes "shhh") sampleStore (asciiBytes "body")
     (some "deadbeef".toList) "products/update"
     (WebhookData.product sampleProductPayload) "now" (by rfl) (by decide)⟩

/-! ## C10 — unset secret makes the verifier throw and the endpoint 500 -/

/-- Claim C10: when neither webhook-secret environment variable is
configured, `crypto.createHmac` receives `undefined` and throws, so
`verifyWebhook` propagates an error instead of returning `false`, and the
the `catch` of the webhook route answers 500 (never 401) for every delivery, with
the store untouched. -/
theorem claim10_unset_secret_yields_500 (st : LocalStore) (body : List Nat)
    (hmacHeader : Option (List Char)) (topic : String) (data : WebhookData)
    (now : String) :
    verifyWebhook none none body hmacHeader =
      .error "TypeError ERR_INVALID_ARG_TYPE: invalid key argument" ∧
    shopifyWebhookEndpoint none none st body hmacHeader topic data now =
      ({ status := 500, success := some false,
         error := some "TypeError ERR_INVALID_ARG_TYPE: invalid key argument" }, st) :=
  ⟨rfl, rfl⟩

/-! ## C1 — signature round trip and single-byte mutation

The verifier recomputes `base64(HMAC-SHA-256(secret, body))` and compares
by `===`. The round trip holds unconditionally. For the mutation half the
statement carries the hypothesis that the recomputed signature of the
mutated body differs from the original one — exactly the collision-freeness
of the external HMAC-SHA-256 primitive on this pair, which is a
cryptographic assumption and not a fact about this code; the witness
discharges it on a concrete mutation by computing both digests. -/

/-- Claim C1: with a configured secret, a body verifies against its own
recomputed signature; and a single-byte mutation of the body fails to
verify against the original signature, provided the recomputed signature
of the mutated body differs (no HMAC collision on this pair). -/
theorem claim1_signature_correctness (env1 env2 : Option (List Nat))
    (secret body : List Nat) (i b : Nat)
    (hsec : jsOrEnv env1 env2 = some secret)
    (hi : i < body.length)
    (_hb : b ≠ body.get ⟨i, hi⟩)
    (hnc : computedSigChars secret (body.set i b) ≠ computedSigChars secret body) :
    verifyWebhook env1 env2 body (some (computedSigChars secret body)) = .ok true ∧
    verifyWebhook env1 env2 (body.set i b) (some (computedSigChars secret body)) =
      .ok false := by
  constructor
  · simp [verifyWebhook, hsec]
    exact (jsStrEqOpt_eq _ _).mpr rfl
  · simp [verifyWebhook, hsec]
    cases hjs : jsStrEqOpt (base64Encode (hmacSha256 secret (body.set i b)))
        (some (computedSigChars secret body)) with
    | false => rfl
    | true =>
        have heq := (jsStrEqOpt_eq _ _).mp hjs
        exact absurd (Option.some.inj heq).symm hnc

/-- Witness for C1: secret `"shhh"`, body `"hello"`, first byte mutated to
`H`; the two digests are computed and differ. -/
theorem claim1_witness :
    (jsOrEnv none (some (asciiBytes "shhh")) = some (asciiBytes "shhh") ∧
     (72 : Nat) ≠ (asciiBytes "hello").get ⟨0, by decide⟩ ∧
     computedSigChars (asciiBytes "shhh") ((asciiBytes "hello").set 0 72) ≠
       computedSigChars (asciiBytes "shhh") (asciiBytes "hello")) ∧
    (verifyWebhook none (some (asciiBytes "shhh")) (asciiBytes "hello")
        (some (computedSigChars (asciiBytes "shhh") (asciiBytes "hello"))) = .ok true ∧
     verifyWebhook none (some (asciiBytes "shhh")) ((asciiBytes "hello").set 0 72)
        (some (computedSigChars (asciiBytes "shhh") (asciiBytes "hello"))) = .ok false) :=
  ⟨⟨by rfl, by decide, by decide⟩,
   claim1_signature_correctness none (some (asciiBytes "shhh")) (asciiBytes "shhh")
     (asciiBytes "hello") 0 72 (by rfl) (by decide) (by decide) (by decide)⟩

/-! ## C8 — the comparison leaks the matching prefix length (corrected)

The spec asserts a comparison that does not leak timing about a partial
match. The code compares with `===`, which (in the comparison-count cost
model of `jsStrEqCost`) short-circuits at the first mismatching character:
its cost is one past the agreeing prefix, capped at the length, so two
headers agreeing with the computed signature on different-length prefixes
are rejected at different costs. -/

/-- The scan cost of two equal-length strings is one past the agreeing
prefix, capped at the length. -/
theorem prefixScan_cost (s t : List Char) (hlen : s.length = t.length) :
    (prefixScan s t).2 = min (commonPrefixLen s t + 1) s.length := by
  induction s generalizing t with
  | nil =>
      cases t with
      | nil => simp [prefixScan, commonPrefixLen]
      | cons b t => simp at hlen
  | cons a s ih =>
      cases t with
      | nil => simp at hlen
      | cons b t =>
          by_cases hab : a = b
          · subst hab
            simp [prefixScan, commonPrefixLen, ih t (by simpa using hlen)]
            omega
          · simp [prefixScan, commonPrefixLen, hab]

/-- Counterexample to C8 as stated: at a concrete secret and body, two
equal-length headers agreeing with the computed signature on prefixes of
different lengths are compared at different costs — the claimed
equal-time property is false. -/
theorem claim8_counterexample :
    ¬ (∀ (env1 env2 : Option (List Nat)) (secret body : List Nat) (h1 h2 : List Char),
        jsOrEnv env1 env2 = some secret →
        h1.length = (computedSigChars secret body).length →
        h2.length = (computedSigChars secret body).length →
        commonPrefixLen (computedSigChars secret body) h1 ≠
          commonPrefixLen (computedSigChars secret body) h2 →
        verifyCmpCost env1 env2 body (some h1) =
          verifyCmpCost env1 env2 body (some h2)) := by
  intro hcl
  have h := hcl none (some (asciiBytes "s")) (asciiBytes "s") (asciiBytes "x")
      ('!' :: (computedSigChars (asciiBytes "s") (asciiBytes "x")).tail)
      ((computedSigChars (asciiBytes "s") (asciiBytes "x")).dropLast ++ ['!'])
      rfl (by decide) (by decide) (by decide)
  exact absurd h (by decide)

/-- C8 amended: the running time of the comparison is determined by the
length of the agreeing prefix between header and computed signature —
`min(prefix + 1, length)` character comparisons — so it does leak where
the first mismatch occurs. -/
theorem claim8_comparison_cost (env1 env2 : Option (List Nat))
    (secret body : List Nat) (h : List Char)
    (hsec : jsOrEnv env1 env2 = some secret)
    (hlen : h.length = (computedSigChars secret body).length) :
    verifyCmpCost env1 env2 body (some h) =
      min (commonPrefixLen (computedSigChars secret body) h + 1)
        (computedSigChars secret body).length := by
  simp [verifyCmpCost, hsec, jsStrEqCost, hlen]
  exact prefixScan_cost _ h hlen.symm

/-- Witness for the amended C8: the fully-matching header is compared in
exactly its length many steps. -/
theorem claim8_witness :
    (jsOrEnv none (some (asciiBytes "s")) = some (asciiBytes "s") ∧
     (computedSigChars (asciiBytes "s") (asciiBytes "x")).length =
       (computedSigChars (asciiBytes "s") (asciiBytes "x")).length) ∧
    verifyCmpCost none (some (asciiBytes "s")) (asciiBytes "x")
        (some (computedSigChars (asciiBytes "s") (asciiBytes "x"))) =
      min (commonPrefixLen (computedSigChars (asciiBytes "s") (asciiBytes "x"))
            (computedSigChars (asciiBytes "s") (asciiBytes "x")) + 1)
        (computedSigChars (asciiBytes "s") (asciiBytes "x")).length :=
  ⟨⟨by rfl, by rfl⟩,
   claim8_comparison_cost none (some (asciiBytes "s")) (asciiBytes "s")
     (asciiBytes "x") (computedSigChars (asciiBytes "s") (asciiBytes "x"))
     (by rfl) (by rfl)⟩

/-! ## C3 — partial-failure isolation in the bulk product sync -/

/-- A payload with an id translates successfully, to a document keyed by
that id. -/
theorem convertShopifyProduct_some (p : ShopifyProductPayload) (pid : Nat)
    (hid : p.id = some pid) :
    ∃ d, convertShopifyProduct p = .ok d ∧ d.shopifyId = idToString pid := by
  cases hc : convertShopifyProduct p with
  | error e => simp [convertShopifyProduct, hid] at hc
  | ok d =>
      refine ⟨d, rfl, ?_⟩
      simp [convertShopifyProduct, hid] at hc
      subst hc
      rfl

/-- A payload without an id makes `handleProductUpdate` throw. -/
theorem handleProductUpdate_error (p : ShopifyProductPayload)
    (s : List (String × ProductDoc)) (hid : p.id = none) :
    handleProductUpdate p s = .error "TypeError: cannot read toString of undefined" := by
  simp [handleProductUpdate, convertShopifyProduct, hid, Except.map]

/-- The `synced` counter of the loop counts exactly the items whose
translation and upsert succeed. -/
theorem syncLoop_synced (ps : List ShopifyProductPayload) :
    ∀ s, (syncProductsLoop ps s).2.1 = ps.countP (fun p => syncOk p) := by
  induction ps with
  | nil => intro s; simp [syncProductsLoop]
  | cons p ps ih =>
      intro s
      cases hid : p.id with
      | none =>
          simp [syncProductsLoop, handleProductUpdate_error p s hid,
            List.countP_cons, syncOk, hid, ih]
      | some pid =>
          obtain ⟨d, hc, hkey⟩ := convertShopifyProduct_some p pid hid
          have hf : handleProductUpdate p s =
              .ok (findOneAndUpdateUpsert mergeProduct id s d.shopifyId d) := by
            simp [handleProductUpdate, hc, Except.map]
          simp [syncProductsLoop, hf, List.countP_cons, syncOk, hid, ih]

/-- The `errors` counter of the loop counts exactly the items that throw. -/
theorem syncLoop_errors (ps : List ShopifyProductPayload) :
    ∀ s, (syncProductsLoop ps s).2.2 = ps.countP (fun p => !syncOk p) := by
  induction ps with
  | nil => intro s; simp [syncProductsLoop]
  | cons p ps ih =>
      intro s
      cases hid : p.id with
      | none =>
          simp [syncProductsLoop, handleProductUpdate_error p s hid,
            List.countP_cons, syncOk, hid, ih]
      | some pid =>
          obtain ⟨d, hc, hkey⟩ := convertShopifyProduct_some p pid hid
          have hf : handleProductUpdate p s =
              .ok (findOneAndUpdateUpsert mergeProduct id s d.shopifyId d) := by
            simp [handleProductUpdate, hc, Except.map]
          simp [syncProductsLoop, hf, List.countP_cons, syncOk, hid, ih]

/-- The loop never removes a document: a present key stays present. -/
theorem findDoc_isSome_syncLoop (ps : List ShopifyProductPayload) :
    ∀ s k, (findDoc s k).isSome → (findDoc (syncProductsLoop ps s).1 k).isSome := by
  induction ps with
  | nil => intro s k h; simpa [syncProductsLoop] using h
  | cons p ps ih =>
      intro s k h
      cases hf : handleProductUpdate p s with
      | error e =>
          simp [syncProductsLoop, hf]
          exact ih s k h
      | ok s1 =>
          simp [syncProductsLoop, hf]
          apply ih
          cases hc : convertShopifyProduct p with
          | error e => simp [handleProductUpdate, hc, Except.map] at hf
          | ok d =>
              simp [handleProductUpdate, hc, Except.map] at hf
              subst hf
              by_cases hk : k = d.shopifyId
              · subst hk
                rw [findDoc_upsert_self]
                simp
              · rw [findDoc_upsert_ne mergeProduct id s k d.shopifyId d hk]
                exact h

/-- A non-throwing item of the batch is present in the store after the
loop, keyed by its id. -/
theorem syncLoop_mem_isSome (p : ShopifyProductPayload) (pid : Nat)
    (hid : p.id = some pid) (ps : List ShopifyProductPayload) :
    ∀ s, p ∈ ps → (findDoc (syncProductsLoop ps s).1 (idToString pid)).isSome := by
  induction ps with
  | nil => intro s h; simp at h
  | cons q ps ih =>
      intro s hmem
      rcases List.mem_cons.mp hmem with hpq | hin
      · subst hpq
        obtain ⟨d, hc, hkey⟩ := convertShopifyProduct_some p pid hid
        have hf : handleProductUpdate p s =
            .ok (findOneAndUpdateUpsert mergeProduct id s d.shopifyId d) := by
          simp [handleProductUpdate, hc, Except.map]
        simp [syncProductsLoop, hf]
        apply findDoc_isSome_syncLoop
        rw [← hkey, findDoc_upsert_self]
        simp
      · cases hf : handleProductUpdate q s with
        | error e =>
            simp [syncProductsLoop, hf]
            exact ih _ hin
        | ok s1 =>
            simp [syncProductsLoop, hf]
            exact ih _ hin

/-- Claim C3: for a fetched batch in which exactly one item throws during
translation or upsert (here: the one item `q` whose id is absent, the
only throwing path of `handleProductUpdate`), the sync route still
completes and responds `synced = N - 1`, `errors = 1`, `total = N`, and
every item other than `q` is present in the store afterward under its
id key. -/
theorem claim3_partial_failure_isolation (l1 l2 : List ShopifyProductPayload)
    (q : ShopifyProductPayload) (s : List (String × ProductDoc))
    (h1 : ∀ p ∈ l1, syncOk p = true) (h2 : ∀ p ∈ l2, syncOk p = true)
    (hq : syncOk q = false) :
    (syncProductsRoute (l1 ++ q :: l2) s).1.synced = (l1 ++ q :: l2).length - 1 ∧
    (syncProductsRoute (l1 ++ q :: l2) s).1.errors = 1 ∧
    (syncProductsRoute (l1 ++ q :: l2) s).1.total = (l1 ++ q :: l2).length ∧
    ∀ p, p ∈ l1 ∨ p ∈ l2 →
      (findDoc (syncProductsRoute (l1 ++ q :: l2) s).2 (idKey p)).isSome := by
  have hlen : (l1 ++ q :: l2).length = l1.length + l2.length + 1 := by
    simp [List.length_append]
    omega
  refine ⟨?_, ?_, rfl, ?_⟩
  · show (syncProductsLoop (l1 ++ q :: l2) s).2.1 = _
    rw [syncLoop_synced, List.countP_append, List.countP_cons_of_neg _ _ (by simp [hq]),
      List.countP_eq_length.mpr h1, List.countP_eq_length.mpr h2, hlen]
    omega
  · show (syncProductsLoop (l1 ++ q :: l2) s).2.2 = _
    rw [syncLoop_errors, List.countP_append,
      List.countP_cons_of_pos _ _ (by simp [hq]),
      List.countP_eq_zero.mpr (fun a ha => by simp [h1 a ha]),
      List.countP_eq_zero.mpr (fun a ha => by simp [h2 a ha])]
  · intro p hp
    have hok : syncOk p = true := hp.elim (h1 p) (h2 p)
    obtain ⟨pid, hpid⟩ := Option.isSome_iff_exists.mp hok
    have hkey : idKey p = idToString pid := by simp [idKey, hpid]
    rw [hkey]
    have hmem : p ∈ l1 ++ q :: l2 := by
      rcases hp with hp | hp
      · exact List.mem_append_left _ hp
      · exact List.mem_append_right _ (List.mem_cons_of_mem q hp)
    exact syncLoop_mem_isSome p pid hpid (l1 ++ q :: l2) s hmem

/-- Witness for C3: a three-item batch whose middle item throws; the
response reports 2 synced, 1 error, 3 total, and both good items are
stored. -/
theorem claim3_witness :
    ((∀ p ∈ [sampleProductPayload], syncOk p = true) ∧
     (∀ p ∈ [bareProductPayload], syncOk p = true) ∧
     syncOk noIdPayload = false) ∧
    ((syncProductsRoute ([sampleProductPayload] ++ noIdPayload :: [bareProductPayload]) []).1.synced =
       ([sampleProductPayload] ++ noIdPayload :: [bareProductPayload]).length - 1 ∧
     (syncProductsRoute ([sampleProductPayload] ++ noIdPayload :: [bareProductPayload]) []).1.errors = 1 ∧
     (syncProductsRoute ([sampleProductPayload] ++ noIdPayload :: [bareProductPayload]) []).1.total =
       ([sampleProductPayload] ++ noIdPayload :: [bareProductPayload]).length ∧
     ∀ p, p ∈ [sampleProductPayload] ∨ p ∈ [bareProductPayload] →
       (findDoc (syncProductsRoute ([sampleProductPayload] ++ noIdPayload :: [bareProductPayload]) []).2
         (idKey p)).isSome) :=
  ⟨⟨by decide, by decide, by decide⟩,
   claim3_partial_failure_isolation [sampleProductPayload] [bareProductPayload]
     noIdPayload [] (by decide) (by decide) (by decide)⟩

end ATC
